import Mathlib

/-!
Verification development for the client-side error-handling fragment:
the error classifier (`extractErrorMessage` with its `getStatusMessage`
status table, src/frontend/src/error-handler.ts), the `BillingError`
type (src/frontend/src/lib/api.ts), the Supabase client factory URL
normalization (src/lib/supabase/client.ts) and the API invocation
wrapper result shape (src/frontend/src/lib/api-client.ts).

JavaScript runtime values are shallowly embedded as `JSValue`; property
access, optional chaining, truthiness and the `||` operator are embedded
with their JavaScript runtime semantics (TypeScript annotations are
erased at runtime, so the classifier really operates on arbitrary
values). A property access on `null`/`undefined` throws a TypeError in
JavaScript; this is embedded as the `Except.error` branch, so "never
throws" is the statement that the classifier always returns `Except.ok`.
-/

/-- A JavaScript runtime value, as far as the error-handling code can
observe it. `verror` is an `instanceof Error` value: its `message`
string plus any extra own properties (the source's `ApiError` interface
extends `Error` with `status`, `code`, `details`, `response`).
`vbilling` is an `instanceof BillingError` value with its `status`,
`detail` and `message` fields. Plain objects are association lists of
own properties. -/
inductive JSValue where
  | vnull
  | vundefined
  | vbool (b : Bool)
  | vnum (n : Int)
  | vstr (s : String)
  | vobj (fields : List (String × JSValue))
  | verror (msg : String) (extra : List (String × JSValue))
  | vbilling (status : Int) (detail : JSValue) (msg : String)

/-- JavaScript truthiness of an embedded value (`NaN` is not embedded;
integers cover the status codes the code manipulates). -/
def truthy : JSValue → Bool
  | .vnull => false
  | .vundefined => false
  | .vbool b => b
  | .vnum n => !(n == 0)
  | .vstr s => !(s == "")
  | .vobj _ => true
  | .verror _ _ => true
  | .vbilling _ _ _ => true

/-- Own-property lookup in a plain object's field list; a missing key
reads as `undefined`. -/
def lookupField : List (String × JSValue) → String → JSValue
  | [], _ => .vundefined
  | (k, v) :: rest, key => if k = key then v else lookupField rest key

/-- Property access `v.key`. `none` is a thrown TypeError (access on
`null`/`undefined`); on any other value the access yields the property
or `undefined`. Properties on primitives other than the ones the code
reads are `undefined`. -/
def getField : JSValue → String → Option JSValue
  | .vnull, _ => none
  | .vundefined, _ => none
  | .vbool _, _ => some .vundefined
  | .vnum _, _ => some .vundefined
  | .vstr _, _ => some .vundefined
  | .vobj fs, k => some (lookupField fs k)
  | .verror m fs, k =>
      some (if k = "message" then .vstr m
            else if k = "name" then .vstr "Error"
            else lookupField fs k)
  | .vbilling st d m, k =>
      some (if k = "message" then .vstr m
            else if k = "name" then .vstr "BillingError"
            else if k = "status" then .vnum st
            else if k = "detail" then d
            else .vundefined)

/-- Optional chaining `v?.key`: `undefined` on nullish `v`, otherwise a
plain (non-throwing, since `v` is not nullish) property access. -/
def optField (v : JSValue) (k : String) : JSValue :=
  match v with
  | .vnull => .vundefined
  | .vundefined => .vundefined
  | _ => (getField v k).getD .vundefined

/-- JavaScript `a || b` on embedded values: the first operand if it is
truthy, otherwise the second. -/
def jsOr (a b : JSValue) : JSValue :=
  if truthy a then a else b

/-- Embedding of `getStatusMessage` (src/frontend/src/error-handler.ts,
the `switch (status)` lookup table). -/
def getStatusMessage (status : Int) : String :=
  if status = 400 then "Invalid request. Please check your input and try again."
  else if status = 401 then "Authentication required. Please sign in again."
  else if status = 403 then "Access denied. You don\x27t have permission to perform this action."
  else if status = 404 then "The requested resource was not found."
  else if status = 408 then "Request timeout. Please try again."
  else if status = 409 then "Conflict detected. The resource may have been modified by another user."
  else if status = 422 then "Invalid data provided. Please check your input."
  else if status = 429 then "Too many requests. Please wait a moment and try again."
  else if status = 500 then "Server error. Our team has been notified."
  else if status = 502 then "Service temporarily unavailable. Please try again in a moment."
  else if status = 503 then "Service maintenance in progress. Please try again later."
  else if status = 504 then "Request timeout. The server took too long to respond."
  else "An unexpected error occurred. Please try again."

/-- `getStatusMessage` as called from `extractErrorMessage`, where the
argument is an arbitrary runtime value (the parameter is only annotated
`number`): the `switch` compares with strict equality, so any non-number
falls through to the `default` branch. -/
def getStatusMessageV : JSValue → String
  | .vnum n => getStatusMessage n
  | _ => "An unexpected error occurred. Please try again."

/-- The source expression `getStatusMessage(error.response.status)`
applied to the (truthy) `error.response` value: a non-optional property
access (`none` = thrown TypeError on a nullish response) followed by the
status switch. -/
def responseStatusMessage (resp : JSValue) : Except String JSValue :=
  match getField resp "status" with
  | none => .error "TypeError"
  | some st => .ok (.vstr (getStatusMessageV st))

/-- The source expression `typeof error.error === \x27string\x27 ?
error.error : error.error.message || \x27Unknown error\x27` applied to the
(truthy) `error.error` value. The `.message` access is non-optional
(`none` = thrown TypeError on a nullish value). -/
def errorFieldMessage (e : JSValue) : Except String JSValue :=
  match e with
  | .vstr s => .ok (.vstr s)
  | _ =>
    match getField e "message" with
    | none => .error "TypeError"
    | some m => .ok (jsOr m (.vstr "Unknown error"))

/-- Embedding of `extractErrorMessage` (src/frontend/src/error-handler.ts).
Each early `return` of the source is one branch, in source order:
`instanceof BillingError`, `instanceof Error`, `error?.response`,
`error?.status`, `typeof error === \x27string\x27`, `error?.message`,
`error?.error`, final default. -/
def extractErrorMessage (error : JSValue) : Except String JSValue :=
  match error with
  | .vbilling _ detail msg =>
      .ok (jsOr (optField detail "message")
            (jsOr (.vstr msg) (.vstr "Billing issue detected")))
  | .verror msg _ => .ok (.vstr msg)
  | _ =>
    if truthy (optField error "response") then
      responseStatusMessage (optField error "response")
    else if truthy (optField error "status") then
      .ok (.vstr (getStatusMessageV (optField error "status")))
    else
      match error with
      | .vstr s => .ok (.vstr s)
      | _ =>
        if truthy (optField error "message") then
          .ok (optField error "message")
        else if truthy (optField error "error") then
          errorFieldMessage (optField error "error")
        else
          .ok (.vstr "An unexpected error occurred")

/-- The value `{response: {status: n}}`: an object with an embedded
transport response carrying status `n`. -/
def statusResponse (n : Int) : JSValue :=
  .vobj [("response", .vobj [("status", .vnum n)])]

/-- JavaScript `String(v)` coercion, as applied by the `Error`
constructor to a non-string message argument. -/
def jsToString : JSValue → String
  | .vnull => "null"
  | .vundefined => "undefined"
  | .vbool b => if b then "true" else "false"
  | .vnum n => toString n
  | .vstr s => s
  | .vobj _ => "[object Object]"
  | .verror m _ => if m = "" then "Error" else "Error: " ++ m
  | .vbilling _ _ m => if m = "" then "BillingError" else "BillingError: " ++ m

/-- Embedding of the `BillingError` constructor
(src/frontend/src/lib/api.ts): `super(message || detail.message ||
\x60Billing Error: ${status}\x60)` followed by `this.name = "BillingError"`,
`this.status = status`, `this.detail = detail`. The `message?: string`
parameter is an `Option String` (absent = `undefined`); `detail` is the
object whose fields are `detailFields` (its `message` entry is an
arbitrary runtime value, since TypeScript types are erased). The `Error`
constructor stringifies a non-string argument; the argument here is
never `undefined` because the last `||` operand is a non-empty string
literal. The `name` property of the resulting value is `"BillingError"`
via `getField`. -/
def mkBillingError (status : Int) (detailFields : List (String × JSValue))
    (message : Option String) : JSValue :=
  let msgArg : JSValue := match message with
    | some s => .vstr s
    | none => .vundefined
  let superArg := jsOr msgArg
    (jsOr (lookupField detailFields "message")
      (.vstr ("Billing Error: " ++ toString status)))
  .vbilling status (.vobj detailFields) (jsToString superArg)

/-- The `message` component of a `vbilling` value (the string the
`Error` superclass stored). -/
def billingMessage : JSValue → String
  | .vbilling _ _ m => m
  | _ => ""

/-- Whether a runtime value is a string (`typeof v === \x27string\x27`). -/
def isStringValue : JSValue → Bool
  | .vstr _ => true
  | _ => false

/-- Embedding of JavaScript `String.prototype.startsWith`: the first
`p.length` characters of `s` equal `p` (all code points involved are
ASCII, so character counting matches the JavaScript code-unit view). -/
def jsStartsWith (s p : String) : Bool :=
  s.data.take p.data.length == p.data

/-- Embedding of the URL adjustment in `createClient`
(src/lib/supabase/client.ts): `if (supabaseUrl &&
!supabaseUrl.startsWith("http")) supabaseUrl = \x60http://${supabaseUrl}\x60`.
String truthiness is non-emptiness. -/
def normalizeSupabaseUrl (url : String) : String :=
  if !(url == "") && !(jsStartsWith url "http") then "http://" ++ url else url

/-- Follows the spec words only (for comparison with
`normalizeSupabaseUrl`): a URL "carries a scheme" when it contains the
scheme separator `://` somewhere, i.e. some suffix starts with the three
characters `:`, `/`, `/`. -/
def specHasScheme (url : String) : Bool :=
  (List.range url.data.length).any
    (fun i => (url.data.drop i).take 3 == [':', '/', '/'])

/-- The four error kinds of the spec taxonomy (§7): domain,
response (status-mapped), network (unreachable / timeout), malformed. -/
inductive ErrorKind where
  | domain
  | response
  | network
  | malformed
deriving DecidableEq

/-- An `ApiError` as produced by the invocation wrapper: its kind plus
the user-presentable message. -/
structure ApiErrorM where
  kind : ErrorKind
  message : String

/-- The tagged result shape `ApiResponse<T>`
(src/frontend/src/lib/api-client.ts): optional `data`, optional `error`,
and the `success` discriminant. -/
structure ApiResponseM where
  success : Bool
  data : Option JSValue
  err : Option ApiErrorM

/-- The possible outcomes of the underlying transport call, as the
wrapper observes them: a successful response with data, a reachable
server answering with a non-success status, a timeout (possibly with a
status code that a late response would otherwise have carried), or a
transport-level failure. -/
inductive TransportOutcome where
  | success (data : JSValue)
  | httpError (status : Int)
  | timeout (staleStatus : Option Int)
  | networkFailure

/-- Modelled from the spec: the body of the API invocation wrapper
(`backendApi`) is not part of the source fragment — api-client.ts only
declares its option and result types. Spec §4.2/§7: a call either
succeeds (`{success: true, data}`), or fails with the failure captured
in the `error` branch; a non-success HTTP status is classified via the
Error Classifier status table as a response-kind error, while a
transport-level failure (cannot reach server, timeout) is classified as
a network-kind error on a distinct code path, independent of the status
table, even if a status code would otherwise apply. -/
def invoke (outcome : TransportOutcome) : ApiResponseM :=
  match outcome with
  | .success d => ⟨true, some d, none⟩
  | .httpError st => ⟨false, none, some ⟨.response, getStatusMessage st⟩⟩
  | .timeout _ => ⟨false, none, some ⟨.network, "Request timed out. Please check your connection and try again."⟩⟩
  | .networkFailure => ⟨false, none, some ⟨.network, "Network error. Please check your connection and try again."⟩⟩

/-! Helper lemmas. -/

lemma string_append_ne_empty_left (a b : String) (h : a ≠ "") : a ++ b ≠ "" := by
  intro hc
  apply h
  apply String.ext
  have hd := congrArg String.data hc
  rw [String.data_append] at hd
  exact (List.append_eq_nil.mp hd).1

lemma toDigitsCore_ne_nil (b : Nat) :
    ∀ (fuel n : Nat) (ds : List Char), ds ≠ [] → Nat.toDigitsCore b fuel n ds ≠ [] := by
  intro fuel
  induction fuel with
  | zero => intro n ds h; simpa [Nat.toDigitsCore] using h
  | succ f ih =>
    intro n ds h
    simp only [Nat.toDigitsCore]
    split
    · simp
    · exact ih _ _ (by simp)

lemma nat_repr_ne_empty (m : Nat) : Nat.repr m ≠ "" := by
  intro h
  have hd : Nat.toDigits 10 m = [] := by
    have := congrArg String.data h
    simpa [Nat.repr, List.asString] using this
  rw [Nat.toDigits] at hd
  revert hd
  simp only [Nat.toDigitsCore]
  split
  · simp
  · exact toDigitsCore_ne_nil 10 m (m / 10) _ (by simp)

lemma int_toString_ne_empty (n : Int) : toString n ≠ "" := by
  cases n with
  | ofNat m => exact nat_repr_ne_empty m
  | negSucc m => exact string_append_ne_empty_left "-" _ (by decide)

lemma truthy_vstr_iff (s : String) : truthy (.vstr s) = true ↔ s ≠ "" := by
  simp [truthy]

lemma getField_isSome_of_truthy (v : JSValue) (k : String) (h : truthy v = true) :
    ∃ w, getField v k = some w := by
  cases v <;> simp_all [truthy, getField]

set_option maxHeartbeats 1000000 in
lemma getStatusMessage_ne_empty (n : Int) : getStatusMessage n ≠ "" := by
  intro h
  unfold getStatusMessage at h
  iterate 12
    split at h
    case isTrue => exact absurd (congrArg String.length h) (by decide)
  exact absurd (congrArg String.length h) (by decide)

lemma getStatusMessageV_ne_empty (v : JSValue) : getStatusMessageV v ≠ "" := by
  have hd : ("An unexpected error occurred. Please try again." : String) ≠ "" := by decide
  cases v
  case vnum n => exact getStatusMessage_ne_empty n
  all_goals exact fun h => absurd h hd

lemma jsOr_truthy_right (a b : JSValue) (h : truthy b = true) : truthy (jsOr a b) = true := by
  unfold jsOr
  split <;> simp_all

lemma jsOr_falsy_left (a b : JSValue) (h : truthy a = false) : jsOr a b = b := by
  simp [jsOr, h]

lemma jsOr_truthy_left (a b : JSValue) (h : truthy a = true) : jsOr a b = a := by
  simp [jsOr, h]

lemma jsOr_ne_vstr_empty (m : JSValue) (lit : String) (hlit : lit ≠ "") :
    jsOr m (.vstr lit) ≠ .vstr "" := by
  unfold jsOr
  split
  · intro hc
    subst hc
    simp_all [truthy]
  · intro hc
    injection hc with h
    exact hlit h

lemma jsToString_ne_empty (v : JSValue) (h : truthy v = true) : jsToString v ≠ "" := by
  cases v with
  | vnull => simp [truthy] at h
  | vundefined => simp [truthy] at h
  | vbool b => cases b with
    | false => simp [truthy] at h
    | true => decide
  | vnum n => exact int_toString_ne_empty n
  | vstr s => simpa [truthy] using h
  | vobj fs => exact fun hc => absurd hc (show ("[object Object]" : String) ≠ "" by decide)
  | verror m extra =>
    simp only [jsToString]
    split
    · decide
    · exact string_append_ne_empty_left _ _ (by decide)
  | vbilling st d m =>
    simp only [jsToString]
    split
    · decide
    · exact string_append_ne_empty_left _ _ (by decide)

lemma responseStatusMessage_ok (resp : JSValue) (h : truthy resp = true) :
    ∃ st, responseStatusMessage resp = .ok (.vstr (getStatusMessageV st)) := by
  obtain ⟨w, hw⟩ := getField_isSome_of_truthy resp "status" h
  exact ⟨w, by simp [responseStatusMessage, hw]⟩

lemma errorFieldMessage_ok (e : JSValue) (h : truthy e = true) :
    ∃ r, errorFieldMessage e = .ok r := by
  cases e <;> simp_all [truthy, errorFieldMessage, getField]

lemma errorFieldMessage_ne_empty (e : JSValue) (h : truthy e = true) (r : JSValue)
    (hr : errorFieldMessage e = .ok r) : r ≠ .vstr "" := by
  have hUnk : (JSValue.vstr "Unknown error") ≠ .vstr "" := by
    intro hc; injection hc with hc2; exact absurd hc2 (by decide)
  cases e with
  | vnull => simp [truthy] at h
  | vundefined => simp [truthy] at h
  | vstr s =>
    simp only [errorFieldMessage, Except.ok.injEq] at hr
    subst hr
    intro hc
    injection hc with hc2
    subst hc2
    simp [truthy] at h
  | vbool b =>
    simp only [errorFieldMessage, getField, Except.ok.injEq] at hr
    subst hr
    exact jsOr_ne_vstr_empty _ _ (by decide)
  | vnum n =>
    simp only [errorFieldMessage, getField, Except.ok.injEq] at hr
    subst hr
    exact jsOr_ne_vstr_empty _ _ (by decide)
  | vobj fs =>
    simp only [errorFieldMessage, getField, Except.ok.injEq] at hr
    subst hr
    exact jsOr_ne_vstr_empty _ _ (by decide)
  | verror m extra =>
    simp only [errorFieldMessage, getField, Except.ok.injEq] at hr
    subst hr
    exact jsOr_ne_vstr_empty _ _ (by decide)
  | vbilling st d m =>
    simp only [errorFieldMessage, getField, Except.ok.injEq] at hr
    subst hr
    exact jsOr_ne_vstr_empty _ _ (by decide)

lemma extract_vobj_resp (fs : List (String × JSValue))
    (h1 : truthy (lookupField fs "response") = true) :
    extractErrorMessage (.vobj fs) = responseStatusMessage (lookupField fs "response") := by
  unfold extractErrorMessage
  simp [optField, getField, h1]

lemma extract_vobj_status (fs : List (String × JSValue))
    (h1 : truthy (lookupField fs "response") = false)
    (h2 : truthy (lookupField fs "status") = true) :
    extractErrorMessage (.vobj fs) =
      .ok (.vstr (getStatusMessageV (lookupField fs "status"))) := by
  unfold extractErrorMessage
  simp [optField, getField, h1, h2]

lemma extract_vobj_message (fs : List (String × JSValue))
    (h1 : truthy (lookupField fs "response") = false)
    (h2 : truthy (lookupField fs "status") = false)
    (h3 : truthy (lookupField fs "message") = true) :
    extractErrorMessage (.vobj fs) = .ok (lookupField fs "message") := by
  unfold extractErrorMessage
  simp [optField, getField, h1, h2, h3]

lemma extract_vobj_error (fs : List (String × JSValue))
    (h1 : truthy (lookupField fs "response") = false)
    (h2 : truthy (lookupField fs "status") = false)
    (h3 : truthy (lookupField fs "message") = false)
    (h4 : truthy (lookupField fs "error") = true) :
    extractErrorMessage (.vobj fs) = errorFieldMessage (lookupField fs "error") := by
  unfold extractErrorMessage
  simp [optField, getField, h1, h2, h3, h4]

lemma extract_vobj_default (fs : List (String × JSValue))
    (h1 : truthy (lookupField fs "response") = false)
    (h2 : truthy (lookupField fs "status") = false)
    (h3 : truthy (lookupField fs "message") = false)
    (h4 : truthy (lookupField fs "error") = false) :
    extractErrorMessage (.vobj fs) = .ok (.vstr "An unexpected error occurred") := by
  unfold extractErrorMessage
  simp [optField, getField, h1, h2, h3, h4]

/-! Claim theorems. -/

/-- Claim C1: for every status code in the lookup table (400, 401, 403,
404, 408, 409, 422, 429, 500, 502, 503, 504), the classifier applied to
a value with an embedded response carrying that status returns exactly
the table's message for that status; and for every status code not in
the table it returns the default message "An unexpected error occurred.
Please try again.". -/
theorem c1_status_table_exact :
    (∀ n : Int,
      n ∉ ([400, 401, 403, 404, 408, 409, 422, 429, 500, 502, 503, 504] : List Int) →
      extractErrorMessage (statusResponse n) =
        .ok (.vstr "An unexpected error occurred. Please try again.")) ∧
    extractErrorMessage (statusResponse 400) =
      .ok (.vstr "Invalid request. Please check your input and try again.") ∧
    extractErrorMessage (statusResponse 401) =
      .ok (.vstr "Authentication required. Please sign in again.") ∧
    extractErrorMessage (statusResponse 403) =
      .ok (.vstr "Access denied. You don\x27t have permission to perform this action.") ∧
    extractErrorMessage (statusResponse 404) =
      .ok (.vstr "The requested resource was not found.") ∧
    extractErrorMessage (statusResponse 408) =
      .ok (.vstr "Request timeout. Please try again.") ∧
    extractErrorMessage (statusResponse 409) =
      .ok (.vstr "Conflict detected. The resource may have been modified by another user.") ∧
    extractErrorMessage (statusResponse 422) =
      .ok (.vstr "Invalid data provided. Please check your input.") ∧
    extractErrorMessage (statusResponse 429) =
      .ok (.vstr "Too many requests. Please wait a moment and try again.") ∧
    extractErrorMessage (statusResponse 500) =
      .ok (.vstr "Server error. Our team has been notified.") ∧
    extractErrorMessage (statusResponse 502) =
      .ok (.vstr "Service temporarily unavailable. Please try again in a moment.") ∧
    extractErrorMessage (statusResponse 503) =
      .ok (.vstr "Service maintenance in progress. Please try again later.") ∧
    extractErrorMessage (statusResponse 504) =
      .ok (.vstr "Request timeout. The server took too long to respond.") := by
  refine ⟨?_, rfl, rfl, rfl, rfl, rfl, rfl, rfl, rfl, rfl, rfl, rfl, rfl⟩
  intro n hn
  simp only [List.mem_cons, List.not_mem_nil, or_false, not_or] at hn
  obtain ⟨h1, h2, h3, h4, h5, h6, h7, h8, h9, h10, h11, h12⟩ := hn
  have hred : extractErrorMessage (statusResponse n) =
      .ok (.vstr (getStatusMessage n)) := rfl
  rw [hred]
  unfold getStatusMessage
  rw [if_neg h1, if_neg h2, if_neg h3, if_neg h4, if_neg h5, if_neg h6,
      if_neg h7, if_neg h8, if_neg h9, if_neg h10, if_neg h11, if_neg h12]

/-- Claim C1 witness: a status code outside the table (777) is not in
the table list and is classified to the default table message. -/
theorem c1_status_table_exact_witness :
    extractErrorMessage (statusResponse 777) =
      .ok (.vstr "An unexpected error occurred. Please try again.") :=
  c1_status_table_exact.1 777 (by decide)

/-- Claim C2 counterexample: the empty string is an input whose
classification result is the empty string (the string rule returns a
string input verbatim), refuting "there is no input for which the
classification result is the empty string". -/
theorem c2_counterexample_empty_string :
    extractErrorMessage (.vstr "") = .ok (.vstr "") := rfl

/-- Claim C2 (amended): the classifier returns the empty string only
when the input is itself the empty string or an `Error` instance whose
`message` is empty (both returned verbatim); for every other input the
result is never the empty string. -/
theorem c2_amended_empty_only_from_empty_inputs :
    ∀ (v r : JSValue), extractErrorMessage v = .ok r → r = .vstr "" →
      v = .vstr "" ∨ ∃ extra, v = .verror "" extra := by
  intro v r h hr
  subst hr
  cases v with
  | vnull =>
    exfalso
    have h2 : (JSValue.vstr "An unexpected error occurred") = .vstr "" := by injection h
    injection h2 with h3
    exact absurd h3 (by decide)
  | vundefined =>
    exfalso
    have h2 : (JSValue.vstr "An unexpected error occurred") = .vstr "" := by injection h
    injection h2 with h3
    exact absurd h3 (by decide)
  | vbool b =>
    exfalso
    have h2 : (JSValue.vstr "An unexpected error occurred") = .vstr "" := by injection h
    injection h2 with h3
    exact absurd h3 (by decide)
  | vnum n =>
    exfalso
    have h2 : (JSValue.vstr "An unexpected error occurred") = .vstr "" := by injection h
    injection h2 with h3
    exact absurd h3 (by decide)
  | vstr s =>
    left
    have h2 : (JSValue.vstr s) = .vstr "" := by injection h
    exact h2
  | verror m extra =>
    right
    have h2 : (JSValue.vstr m) = .vstr "" := by injection h
    injection h2 with h3
    exact ⟨extra, by rw [h3]⟩
  | vbilling st d m =>
    exfalso
    have h2 : jsOr (optField d "message")
        (jsOr (.vstr m) (.vstr "Billing issue detected")) = .vstr "" := by injection h
    cases ht1 : truthy (optField d "message") with
    | true =>
      simp only [jsOr, ht1, if_true] at h2
      rw [h2] at ht1
      simp [truthy] at ht1
    | false =>
      simp only [jsOr, ht1, Bool.false_eq_true, if_false] at h2
      cases ht2 : truthy (JSValue.vstr m) with
      | true =>
        simp only [ht2, if_true] at h2
        rw [h2] at ht2
        simp [truthy] at ht2
      | false =>
        simp only [ht2, Bool.false_eq_true, if_false] at h2
        injection h2 with h3
        exact absurd h3 (by decide)
  | vobj fs =>
    exfalso
    cases ht1 : truthy (lookupField fs "response") with
    | true =>
      obtain ⟨st, hst⟩ := responseStatusMessage_ok _ ht1
      rw [extract_vobj_resp fs ht1, hst] at h
      have h2 : (JSValue.vstr (getStatusMessageV st)) = .vstr "" := by injection h
      injection h2 with h3
      exact getStatusMessageV_ne_empty st h3
    | false =>
      cases ht2 : truthy (lookupField fs "status") with
      | true =>
        rw [extract_vobj_status fs ht1 ht2] at h
        have h2 : (JSValue.vstr (getStatusMessageV (lookupField fs "status"))) = .vstr "" := by
          injection h
        injection h2 with h3
        exact getStatusMessageV_ne_empty _ h3
      | false =>
        cases ht3 : truthy (lookupField fs "message") with
        | true =>
          rw [extract_vobj_message fs ht1 ht2 ht3] at h
          have h2 : lookupField fs "message" = .vstr "" := by injection h
          rw [h2] at ht3
          simp [truthy] at ht3
        | false =>
          cases ht4 : truthy (lookupField fs "error") with
          | true =>
            rw [extract_vobj_error fs ht1 ht2 ht3 ht4] at h
            exact errorFieldMessage_ne_empty _ ht4 _ h rfl
          | false =>
            rw [extract_vobj_default fs ht1 ht2 ht3 ht4] at h
            have h2 : (JSValue.vstr "An unexpected error occurred") = .vstr "" := by injection h
            injection h2 with h3
            exact absurd h3 (by decide)

/-- Claim C2 witness: the amended characterization applied at the
empty-string input. -/
theorem c2_amended_witness :
    JSValue.vstr "" = .vstr "" ∨ ∃ extra, JSValue.vstr "" = .verror "" extra :=
  c2_amended_empty_only_from_empty_inputs (.vstr "") (.vstr "") rfl rfl

/-- Claim C3: the classifier on a BillingError value returns its detail
message; if the detail message is absent (the `detail` object has no
`message` key, so the read yields `undefined`), it returns the error's
generic message; if both are absent, it returns the literal "Billing
issue detected". A present (truthy) detail message is a non-empty
string, matching the source's truthiness-based fallback. -/
theorem c3_billing_detail_fallback :
    (∀ (st : Int) (d : List (String × JSValue)) (m X : String),
      lookupField d "message" = .vstr X → X ≠ "" →
      extractErrorMessage (.vbilling st (.vobj d) m) = .ok (.vstr X)) ∧
    (∀ (st : Int) (d : List (String × JSValue)) (m : String),
      lookupField d "message" = .vundefined → m ≠ "" →
      extractErrorMessage (.vbilling st (.vobj d) m) = .ok (.vstr m)) ∧
    (∀ (st : Int) (d : List (String × JSValue)),
      lookupField d "message" = .vundefined →
      extractErrorMessage (.vbilling st (.vobj d) "") =
        .ok (.vstr "Billing issue detected")) := by
  refine ⟨?_, ?_, ?_⟩
  · intro st d m X hX hne
    have hred : extractErrorMessage (.vbilling st (.vobj d) m) =
        .ok (jsOr (lookupField d "message")
          (jsOr (.vstr m) (.vstr "Billing issue detected"))) := rfl
    rw [hred, hX]
    simp [jsOr, truthy, hne]
  · intro st d m habs hne
    have hred : extractErrorMessage (.vbilling st (.vobj d) m) =
        .ok (jsOr (lookupField d "message")
          (jsOr (.vstr m) (.vstr "Billing issue detected"))) := rfl
    rw [hred, habs]
    simp [jsOr, truthy, hne]
  · intro st d habs
    have hred : extractErrorMessage (.vbilling st (.vobj d) "") =
        .ok (jsOr (lookupField d "message")
          (jsOr (.vstr "") (.vstr "Billing issue detected"))) := rfl
    rw [hred, habs]
    simp [jsOr, truthy]

/-- Claim C3 witness: the three fallback levels at concrete BillingError
values. -/
theorem c3_billing_detail_fallback_witness :
    extractErrorMessage (.vbilling 402 (.vobj [("message", .vstr "X")]) "Y") =
      .ok (.vstr "X") ∧
    extractErrorMessage (.vbilling 402 (.vobj []) "Y") = .ok (.vstr "Y") ∧
    extractErrorMessage (.vbilling 402 (.vobj []) "") =
      .ok (.vstr "Billing issue detected") :=
  ⟨c3_billing_detail_fallback.1 402 [("message", .vstr "X")] "Y" "X" rfl (by decide),
   c3_billing_detail_fallback.2.1 402 [] "Y" rfl (by decide),
   c3_billing_detail_fallback.2.2 402 [] rfl⟩

/-- Claim C4 counterexample: on the input `{message: 42}` evaluation
completes normally but produces the number 42, not a string (the truthy
`message` field is returned verbatim; the TypeScript `string` return
annotation is not enforced at runtime). -/
theorem c4_counterexample_nonstring_result :
    extractErrorMessage (.vobj [("message", .vnum 42)]) = .ok (.vnum 42) ∧
    isStringValue (.vnum 42) = false :=
  ⟨rfl, rfl⟩

/-- Claim C4 (amended): the classifier is total and never throws — for
every input value, including null and undefined, evaluation completes
normally (`Except.ok`, never the TypeError branch) and produces a
value; that value is the matched rule's result, which is a string except
when a truthy non-string message-like field is returned verbatim. Null
and undefined produce the default string. -/
theorem c4_amended_total_never_throws :
    (∀ v : JSValue, ∃ r, extractErrorMessage v = .ok r) ∧
    extractErrorMessage .vnull = .ok (.vstr "An unexpected error occurred") ∧
    extractErrorMessage .vundefined = .ok (.vstr "An unexpected error occurred") := by
  refine ⟨?_, rfl, rfl⟩
  intro v
  cases v with
  | vnull => exact ⟨_, rfl⟩
  | vundefined => exact ⟨_, rfl⟩
  | vbool b => exact ⟨_, rfl⟩
  | vnum n => exact ⟨_, rfl⟩
  | vstr s => exact ⟨_, rfl⟩
  | verror m extra => exact ⟨_, rfl⟩
  | vbilling st d m => exact ⟨_, rfl⟩
  | vobj fs =>
    cases ht1 : truthy (lookupField fs "response") with
    | true =>
      obtain ⟨st, hst⟩ := responseStatusMessage_ok _ ht1
      exact ⟨_, by rw [extract_vobj_resp fs ht1, hst]⟩
    | false =>
      cases ht2 : truthy (lookupField fs "status") with
      | true => exact ⟨_, extract_vobj_status fs ht1 ht2⟩
      | false =>
        cases ht3 : truthy (lookupField fs "message") with
        | true => exact ⟨_, extract_vobj_message fs ht1 ht2 ht3⟩
        | false =>
          cases ht4 : truthy (lookupField fs "error") with
          | true =>
            obtain ⟨r, hr⟩ := errorFieldMessage_ok _ ht4
            exact ⟨r, by rw [extract_vobj_error fs ht1 ht2 ht3 ht4, hr]⟩
          | false => exact ⟨_, extract_vobj_default fs ht1 ht2 ht3 ht4⟩

/-- Claim C5 counterexample: `{error: ""}` has a text `error` field, yet
the classifier does not return that text verbatim — the empty string is
falsy, so the rule is skipped and the final default is returned. -/
theorem c5_counterexample_empty_error_field :
    extractErrorMessage (.vobj [("error", .vstr "")]) =
      .ok (.vstr "An unexpected error occurred") := rfl

/-- Claim C5 (amended): for a value whose `error` field is a non-empty
text, the classifier returns that text verbatim; for a value whose
`error` field is an object with a non-empty-string `message` field, it
returns that message; for a value whose `error` field is an object
without a truthy `message` field (e.g. the empty object), it returns
"Unknown error". An empty-string `error` field is falsy and falls
through to the final default instead. -/
theorem c5_amended_error_field_rules :
    (∀ s : String, s ≠ "" →
      extractErrorMessage (.vobj [("error", .vstr s)]) = .ok (.vstr s)) ∧
    (∀ (fs : List (String × JSValue)) (m : String),
      lookupField fs "message" = .vstr m → m ≠ "" →
      extractErrorMessage (.vobj [("error", .vobj fs)]) = .ok (.vstr m)) ∧
    (∀ fs : List (String × JSValue),
      truthy (lookupField fs "message") = false →
      extractErrorMessage (.vobj [("error", .vobj fs)]) =
        .ok (.vstr "Unknown error")) := by
  refine ⟨?_, ?_, ?_⟩
  · intro s hs
    have ht : truthy (lookupField [("error", JSValue.vstr s)] "error") = true := by
      have hb : (s == "") = false := beq_eq_false_iff_ne.mpr hs
      simp [lookupField, truthy, hb]
    have h1f : truthy (lookupField [("error", JSValue.vstr s)] "response") = false := rfl
    have h2f : truthy (lookupField [("error", JSValue.vstr s)] "status") = false := rfl
    have h3f : truthy (lookupField [("error", JSValue.vstr s)] "message") = false := rfl
    rw [extract_vobj_error _ h1f h2f h3f ht]
    rfl
  · intro fs m hm hne
    have h1f : truthy (lookupField [("error", JSValue.vobj fs)] "response") = false := rfl
    have h2f : truthy (lookupField [("error", JSValue.vobj fs)] "status") = false := rfl
    have h3f : truthy (lookupField [("error", JSValue.vobj fs)] "message") = false := rfl
    have h4t : truthy (lookupField [("error", JSValue.vobj fs)] "error") = true := rfl
    rw [extract_vobj_error _ h1f h2f h3f h4t]
    have hred : errorFieldMessage (lookupField [("error", JSValue.vobj fs)] "error") =
        .ok (jsOr (lookupField fs "message") (.vstr "Unknown error")) := rfl
    rw [hred, hm]
    simp [jsOr, truthy, hne]
  · intro fs hm
    have h1f : truthy (lookupField [("error", JSValue.vobj fs)] "response") = false := rfl
    have h2f : truthy (lookupField [("error", JSValue.vobj fs)] "status") = false := rfl
    have h3f : truthy (lookupField [("error", JSValue.vobj fs)] "message") = false := rfl
    have h4t : truthy (lookupField [("error", JSValue.vobj fs)] "error") = true := rfl
    rw [extract_vobj_error _ h1f h2f h3f h4t]
    have hred : errorFieldMessage (lookupField [("error", JSValue.vobj fs)] "error") =
        .ok (jsOr (lookupField fs "message") (.vstr "Unknown error")) := rfl
    rw [hred, jsOr_falsy_left _ _ hm]

/-- Claim C5 witness: the three error-field shapes at the spec's own
example inputs. -/
theorem c5_amended_witness :
    extractErrorMessage (.vobj [("error", .vstr "oops")]) = .ok (.vstr "oops") ∧
    extractErrorMessage (.vobj [("error", .vobj [("message", .vstr "oops2")])]) =
      .ok (.vstr "oops2") ∧
    extractErrorMessage (.vobj [("error", .vobj [])]) = .ok (.vstr "Unknown error") :=
  ⟨c5_amended_error_field_rules.1 "oops" (by decide),
   c5_amended_error_field_rules.2.1 [("message", .vstr "oops2")] "oops2" rfl (by decide),
   c5_amended_error_field_rules.2.2 [] rfl⟩

/-- Claim C6: the resolution order is first-match-wins — an Error
instance (generic-error capability) that also carries an embedded
response object and a bare numeric status field among its own
properties is resolved by the earlier rule: its message is returned
verbatim, never a status-table message. -/
theorem c6_error_instance_beats_status_rules :
    ∀ (msg : String) (resp : JSValue) (st : Int) (extra : List (String × JSValue)),
      extractErrorMessage
        (.verror msg (("response", resp) :: ("status", .vnum st) :: extra)) =
        .ok (.vstr msg) := by
  intro msg resp st extra
  rfl

/-- Claim C7: a timed-out invocation returns the failure branch
(`success = false`) carrying a network-kind error, never a
response-kind (status-table) error, even when a stale status code would
otherwise apply. -/
theorem c7_timeout_is_network_error :
    ∀ staleStatus : Option Int,
      (invoke (.timeout staleStatus)).success = false ∧
      (invoke (.timeout staleStatus)).err.map ApiErrorM.kind = some .network ∧
      (invoke (.timeout staleStatus)).err.map ApiErrorM.kind ≠ some .response := by
  intro st
  refine ⟨rfl, rfl, ?_⟩
  intro hc
  exact ErrorKind.noConfusion (Option.some.inj hc)

/-- Claim C8 counterexample: `ftp://example.com` carries a scheme (it
contains the separator `://`), yet the factory does not pass it through
unchanged — it does not start with "http", so the plain-HTTP prefix is
prepended; conversely `httpexample.com` lacks a scheme yet is passed
through unchanged because it starts with the four characters "http". -/
theorem c8_counterexample_scheme_vs_http_prefix :
    (specHasScheme "ftp://example.com" = true ∧
      normalizeSupabaseUrl "ftp://example.com" = "http://ftp://example.com") ∧
    (specHasScheme "httpexample.com" = false ∧
      normalizeSupabaseUrl "httpexample.com" = "httpexample.com") :=
  ⟨⟨by decide, by decide⟩, ⟨by decide, by decide⟩⟩

/-- Claim C8 (amended): the factory's check is a prefix test, not a
scheme test — if the configured URL is non-empty and does not start
with the four characters "http", then "http://" is prefixed before the
client is constructed; a URL starting with "http" (which includes all
http:// and https:// URLs) and the empty URL are passed through
unchanged. -/
theorem c8_amended_http_prefix_rule :
    ∀ url : String,
      (url ≠ "" → jsStartsWith url "http" = false →
        normalizeSupabaseUrl url = "http://" ++ url) ∧
      (jsStartsWith url "http" = true → normalizeSupabaseUrl url = url) ∧
      normalizeSupabaseUrl "" = "" := by
  intro url
  refine ⟨?_, ?_, rfl⟩
  · intro hne hsw
    have hb : (url == "") = false := beq_eq_false_iff_ne.mpr hne
    unfold normalizeSupabaseUrl
    simp [hb, hsw]
  · intro hsw
    unfold normalizeSupabaseUrl
    simp [hsw]

/-- Claim C8 witness: a schemeless host gets the prefix; an https URL
passes through unchanged. -/
theorem c8_amended_witness :
    normalizeSupabaseUrl "example.com" = "http://" ++ "example.com" ∧
    normalizeSupabaseUrl "https://example.com" = "https://example.com" :=
  ⟨(c8_amended_http_prefix_rule "example.com").1 (by decide) (by decide),
   (c8_amended_http_prefix_rule "https://example.com").2.1 (by decide)⟩

/-- Claim C9: every BillingError produced by its constructor has a
non-empty message string; when the optional message argument and the
detail message are both absent or empty (falsy), the message is the
non-empty string "Billing Error: <status>"; and the `name` field is
always "BillingError". -/
theorem c9_constructor_invariants :
    ∀ (st : Int) (d : List (String × JSValue)) (m : Option String),
      billingMessage (mkBillingError st d m) ≠ "" ∧
      getField (mkBillingError st d m) "name" = some (.vstr "BillingError") ∧
      ((m = none ∨ m = some "") → truthy (lookupField d "message") = false →
        billingMessage (mkBillingError st d m) = "Billing Error: " ++ toString st) := by
  intro st d m
  have hfbne := string_append_ne_empty_left "Billing Error: " (toString st) (by decide)
  have hred : billingMessage (mkBillingError st d m) =
      jsToString (jsOr (match m with | some s => JSValue.vstr s | none => .vundefined)
        (jsOr (lookupField d "message")
          (.vstr ("Billing Error: " ++ toString st)))) := rfl
  refine ⟨?_, rfl, ?_⟩
  · rw [hred]
    apply jsToString_ne_empty
    apply jsOr_truthy_right
    apply jsOr_truthy_right
    have hb : (("Billing Error: " ++ toString st) == "") = false :=
      beq_eq_false_iff_ne.mpr hfbne
    simp [truthy, hb]
  · intro hm hd
    rcases hm with hm | hm
    · subst hm
      have hred2 : billingMessage (mkBillingError st d none) =
          jsToString (jsOr .vundefined
            (jsOr (lookupField d "message")
              (.vstr ("Billing Error: " ++ toString st)))) := rfl
      rw [hred2,
        jsOr_falsy_left JSValue.vundefined
          (jsOr (lookupField d "message") (.vstr ("Billing Error: " ++ toString st))) rfl,
        jsOr_falsy_left _ _ hd]
      rfl
    · subst hm
      have hred2 : billingMessage (mkBillingError st d (some "")) =
          jsToString (jsOr (.vstr "")
            (jsOr (lookupField d "message")
              (.vstr ("Billing Error: " ++ toString st)))) := rfl
      rw [hred2,
        jsOr_falsy_left (JSValue.vstr "")
          (jsOr (lookupField d "message") (.vstr ("Billing Error: " ++ toString st))) rfl,
        jsOr_falsy_left _ _ hd]
      rfl

/-- Claim C9 witness: the constructor invariants at status 402 with an
empty detail object and no message argument. -/
theorem c9_constructor_invariants_witness :
    billingMessage (mkBillingError 402 [] none) ≠ "" ∧
    getField (mkBillingError 402 [] none) "name" = some (.vstr "BillingError") ∧
    billingMessage (mkBillingError 402 [] none) = "Billing Error: " ++ toString (402 : Int) := by
  obtain ⟨h1, h2, h3⟩ := c9_constructor_invariants 402 [] none
  exact ⟨h1, h2, h3 (Or.inl rfl) rfl⟩

/-- Claim C10: the classifier's field-presence checks are truthiness
checks, so falsy field values (status 0, empty-string message,
empty-string error) are treated as absent: whenever all four dispatch
fields (`response`, `status`, `message`, `error`) of a plain object are
falsy, every rule is skipped and the final default "An unexpected error
occurred" is returned — in particular for the singleton objects
`{status: 0}`, `{message: ""}` and `{error: ""}`. -/
theorem c10_falsy_fields_treated_as_absent :
    (∀ fs : List (String × JSValue),
      truthy (lookupField fs "response") = false →
      truthy (lookupField fs "status") = false →
      truthy (lookupField fs "message") = false →
      truthy (lookupField fs "error") = false →
      extractErrorMessage (.vobj fs) = .ok (.vstr "An unexpected error occurred")) ∧
    extractErrorMessage (.vobj [("status", .vnum 0)]) =
      .ok (.vstr "An unexpected error occurred") ∧
    extractErrorMessage (.vobj [("message", .vstr "")]) =
      .ok (.vstr "An unexpected error occurred") ∧
    extractErrorMessage (.vobj [("error", .vstr "")]) =
      .ok (.vstr "An unexpected error occurred") :=
  ⟨fun fs h1 h2 h3 h4 => extract_vobj_default fs h1 h2 h3 h4, rfl, rfl, rfl⟩

/-- Claim C10 witness: an object carrying all three falsy dispatch
fields at once is classified to the final default. -/
theorem c10_falsy_fields_witness :
    extractErrorMessage
        (.vobj [("status", .vnum 0), ("message", .vstr ""), ("error", .vstr "")]) =
      .ok (.vstr "An unexpected error occurred") :=
  c10_falsy_fields_treated_as_absent.1 _ rfl rfl rfl rfl

